import Mathlib

/-!
Verification development for the Peer-Tutoring-Platform session scheduling
core. The definitions below are a shallow embedding of the session router
(routes/sessions.js) and the Session schema (models/Session.js): timestamps
are integer epoch milliseconds, user and session identifiers are natural
numbers, and the Mongo query used by the conflict detector is rendered as a
list filter with the same predicate. The HH:mm strings compared
lexicographically in the availability checker are rendered as
minutes-since-midnight (zero-padded HH:mm lexicographic order coincides with
numeric minute order).
-/

namespace PeerTutoring

/-- Session status enumeration from the Session schema (models/Session.js). -/
inductive Status
  | scheduled
  | confirmed
  | ongoing
  | completed
  | cancelled
  | noShow
deriving DecidableEq, Repr

/-- Recurrence frequency enumeration from the Session schema. -/
inductive Frequency
  | weekly
  | biweekly
  | monthly
deriving DecidableEq, Repr

/-- Reminder sub-document: a sent flag and an optional sent-at timestamp. -/
structure Reminders where
  sent : Bool
  sentAt : Option Int
deriving DecidableEq, Repr

/-- Recurrence sub-document of a session. -/
structure Recurring where
  isRecurring : Bool
  frequency : Option Frequency
  endDate : Option Int
  parentSession : Option Nat
deriving DecidableEq, Repr

/-- Cancellation record: who cancelled, when, and why. -/
structure Cancellation where
  cancelledBy : Nat
  cancelledAt : Int
  reason : String
deriving DecidableEq, Repr

/-- The Session entity, restricted to the fields the scheduling core reads
or writes (models/Session.js). -/
structure Session where
  id : Nat
  student : Nat
  tutor : Nat
  scheduledStart : Int
  scheduledEnd : Int
  actualStart : Option Int
  actualEnd : Option Int
  status : Status
  reminders : Reminders
  recurring : Recurring
  cancellation : Option Cancellation
  notesStudent : Option String
  notesTutor : Option String
  notesAdmin : Option String
deriving DecidableEq, Repr

/-- The statuses treated as active by the conflict query. -/
def statusActive : Status → Bool
  | .scheduled => true
  | .confirmed => true
  | .ongoing => true
  | _ => false

/-- Predicate of the Mongo query built by checkSchedulingConflicts in the
sessions router: (student equals studentId OR tutor equals tutorId) AND
status in scheduled/confirmed/ongoing AND scheduledStart before the window
end AND scheduledEnd after the window start, excluding excludeSessionId when
one is supplied. -/
def conflictMatches (studentId tutorId : Nat) (wstart wend : Int)
    (excludeSessionId : Option Nat) (s : Session) : Bool :=
  (s.student == studentId || s.tutor == tutorId)
    && statusActive s.status
    && decide (s.scheduledStart < wend)
    && decide (s.scheduledEnd > wstart)
    && (match excludeSessionId with
        | none => true
        | some ex => s.id != ex)

/-- checkSchedulingConflicts from the sessions router, over an explicit list
of stored sessions in place of the Mongo collection. -/
def checkSchedulingConflicts (store : List Session) (studentId tutorId : Nat)
    (wstart wend : Int) (excludeSessionId : Option Nat) : List Session :=
  store.filter (conflictMatches studentId tutorId wstart wend excludeSessionId)

theorem mem_checkSchedulingConflicts {store : List Session} {sid tid : Nat}
    {ws we : Int} {ex : Option Nat} {s : Session} :
    s ∈ checkSchedulingConflicts store sid tid ws we ex ↔
      s ∈ store ∧ conflictMatches sid tid ws we ex s = true := by
  simp [checkSchedulingConflicts, List.mem_filter]

theorem conflictMatches_none_iff {sid tid : Nat} {ws we : Int} {s : Session} :
    conflictMatches sid tid ws we none s = true ↔
      (s.student = sid ∨ s.tutor = tid) ∧
        statusActive s.status = true ∧
        s.scheduledStart < we ∧ s.scheduledEnd > ws := by
  simp [conflictMatches, and_assoc]

/-- C1 (amended): for a stored session that shares the candidate booking's
student in the student role or the candidate's tutor in the tutor role, the
conflict check used by Book and Reschedule reports a conflict exactly when
the stored window and the candidate window overlap as half-open intervals
(stored start before window end and stored end after window start) and the
stored status is scheduled, confirmed or ongoing; back-to-back windows, where
one side's end equals the other's start, are never reported as conflicts. -/
theorem c1_conflict_predicate (store : List Session) (sid tid : Nat)
    (ws we : Int) (s : Session) (hs : s ∈ store) :
    (s ∈ checkSchedulingConflicts store sid tid ws we none ↔
      ((s.student = sid ∨ s.tutor = tid) ∧
        (s.status = .scheduled ∨ s.status = .confirmed ∨ s.status = .ongoing) ∧
        s.scheduledStart < we ∧ s.scheduledEnd > ws)) ∧
    (s.scheduledEnd = ws → s ∉ checkSchedulingConflicts store sid tid ws we none) ∧
    (s.scheduledStart = we → s ∉ checkSchedulingConflicts store sid tid ws we none) := by
  have hact : statusActive s.status = true ↔
      (s.status = .scheduled ∨ s.status = .confirmed ∨ s.status = .ongoing) := by
    cases s.status <;> simp [statusActive]
  have hmain : s ∈ checkSchedulingConflicts store sid tid ws we none ↔
      ((s.student = sid ∨ s.tutor = tid) ∧
        (s.status = .scheduled ∨ s.status = .confirmed ∨ s.status = .ongoing) ∧
        s.scheduledStart < we ∧ s.scheduledEnd > ws) := by
    rw [mem_checkSchedulingConflicts, conflictMatches_none_iff, hact]
    simp [hs]
  refine ⟨hmain, ?_, ?_⟩
  · intro hend hmem
    have h := (hmain.mp hmem).2.2.2
    omega
  · intro hstart hmem
    have h := (hmain.mp hmem).2.2.1
    omega

/-- Witness for c1_conflict_predicate at a concrete store and window. -/
theorem c1_conflict_predicate_witness :
    let s : Session := ⟨1, 1, 2, 100, 200, none, none, .scheduled,
      ⟨false, none⟩, ⟨false, none, none, none⟩, none, none, none, none⟩
    (s ∈ checkSchedulingConflicts [s] 1 2 150 250 none ↔
      ((s.student = 1 ∨ s.tutor = 2) ∧
        (s.status = .scheduled ∨ s.status = .confirmed ∨ s.status = .ongoing) ∧
        s.scheduledStart < 250 ∧ s.scheduledEnd > 150)) ∧
    (s.scheduledEnd = 150 → s ∉ checkSchedulingConflicts [s] 1 2 150 250 none) ∧
    (s.scheduledStart = 250 → s ∉ checkSchedulingConflicts [s] 1 2 150 250 none) :=
  c1_conflict_predicate [⟨1, 1, 2, 100, 200, none, none, .scheduled,
      ⟨false, none⟩, ⟨false, none, none, none⟩, none, none, none, none⟩]
    1 2 150 250
    ⟨1, 1, 2, 100, 200, none, none, .scheduled,
      ⟨false, none⟩, ⟨false, none, none, none⟩, none, none, none, none⟩
    (List.mem_singleton.mpr rfl)

/-- C1 counterexample: the stored session has student 1 and tutor 2; the
candidate booking has student 3 and tutor 1, so participant 1 is shared
(student of the stored session, tutor of the candidate), the windows overlap
half-open, and the stored status is scheduled, yet the conflict check reports
no conflict. -/
theorem c1_counterexample :
    let stored : Session := ⟨1, 1, 2, 100, 200, none, none, .scheduled,
      ⟨false, none⟩, ⟨false, none, none, none⟩, none, none, none, none⟩
    checkSchedulingConflicts [stored] 3 1 150 250 none = [] ∧
    stored.student = 1 ∧ stored.scheduledStart < 250 ∧
    stored.scheduledEnd > 150 ∧ stored.status = .scheduled := by
  refine ⟨?_, rfl, by decide, by decide, rfl⟩
  rfl

/-- C2 (amended): the conflict detector, given participants A (student of
the candidate) and B (tutor of the candidate), a window and an optional
excluded session id, returns exactly the stored sessions whose student
equals A or whose tutor equals B (it does not match A in the tutor role or
B in the student role), whose status is scheduled, confirmed or ongoing,
whose window overlaps the candidate window, and whose id differs from the
excluded id when one is supplied. -/
theorem c2_conflict_detector (store : List Session) (a b : Nat)
    (ws we : Int) (ex : Option Nat) (s : Session) (hs : s ∈ store) :
    s ∈ checkSchedulingConflicts store a b ws we ex ↔
      ((s.student = a ∨ s.tutor = b) ∧
        (s.status = .scheduled ∨ s.status = .confirmed ∨ s.status = .ongoing) ∧
        s.scheduledStart < we ∧ s.scheduledEnd > ws ∧
        (∀ e, ex = some e → s.id ≠ e)) := by
  have hact : statusActive s.status = true ↔
      (s.status = .scheduled ∨ s.status = .confirmed ∨ s.status = .ongoing) := by
    cases s.status <;> simp [statusActive]
  rw [mem_checkSchedulingConflicts]
  cases ex with
  | none =>
      rw [conflictMatches_none_iff, hact]
      simp [hs, and_assoc]
  | some e =>
      simp only [conflictMatches, Bool.and_eq_true, Bool.or_eq_true, beq_iff_eq,
        decide_eq_true_eq, bne_iff_ne, hact, hs, true_and, and_assoc]
      constructor
      · rintro ⟨h1, h2, h3, h4, h5⟩
        exact ⟨h1, h2, h3, h4, fun x hx => by cases hx; exact h5⟩
      · rintro ⟨h1, h2, h3, h4, h5⟩
        exact ⟨h1, h2, h3, h4, h5 e rfl⟩

/-- Witness for c2_conflict_detector at a concrete store, window and
excluded id. -/
theorem c2_conflict_detector_witness :
    let s : Session := ⟨1, 1, 2, 100, 200, none, none, .scheduled,
      ⟨false, none⟩, ⟨false, none, none, none⟩, none, none, none, none⟩
    s ∈ checkSchedulingConflicts [s] 1 2 150 250 (some 7) ↔
      ((s.student = 1 ∨ s.tutor = 2) ∧
        (s.status = .scheduled ∨ s.status = .confirmed ∨ s.status = .ongoing) ∧
        s.scheduledStart < 250 ∧ s.scheduledEnd > 150 ∧
        (∀ e, (some 7 : Option Nat) = some e → s.id ≠ e)) :=
  c2_conflict_detector [⟨1, 1, 2, 100, 200, none, none, .scheduled,
      ⟨false, none⟩, ⟨false, none, none, none⟩, none, none, none, none⟩]
    1 2 150 250 (some 7)
    ⟨1, 1, 2, 100, 200, none, none, .scheduled,
      ⟨false, none⟩, ⟨false, none, none, none⟩, none, none, none, none⟩
    (List.mem_singleton.mpr rfl)

/-- C2 counterexample: the stored session has tutor 5, which is
participant A of the query (its student), the windows overlap and the status
is scheduled, so the claim says it is returned; the detector returns the
empty list because it only matches participant A in the student role. -/
theorem c2_counterexample :
    let stored : Session := ⟨2, 9, 5, 100, 200, none, none, .scheduled,
      ⟨false, none⟩, ⟨false, none, none, none⟩, none, none, none, none⟩
    checkSchedulingConflicts [stored] 5 6 150 250 none = [] ∧
    stored.tutor = 5 ∧ stored.scheduledStart < 250 ∧
    stored.scheduledEnd > 150 ∧ stored.status = .scheduled := by
  refine ⟨?_, rfl, by decide, by decide, rfl⟩
  rfl

/-- Error outcomes of the lifecycle routes, one constructor per distinct
client-reportable failure of the embedded operations. -/
inductive LcError
  | forbidden
  | invalidState
  | invalidWindow
  | notFuture
  | schedulingConflict (conflicts : List Session)
  | tooEarly
  | emptyReason
deriving DecidableEq, Repr

/-- The reschedule route: guards in source order (participant, status in
scheduled/confirmed, start before end, start in the future, no conflicts
excluding the session itself), then replaces the window and resets the
status to scheduled. No other field is written. -/
def reschedule (store : List Session) (s : Session) (callerId : Nat)
    (newStart newEnd now : Int) : Except LcError Session :=
  if callerId ≠ s.student ∧ callerId ≠ s.tutor then .error .forbidden
  else if ¬ (s.status = .scheduled ∨ s.status = .confirmed) then .error .invalidState
  else if newStart ≥ newEnd then .error .invalidWindow
  else if newStart ≤ now then .error .notFuture
  else
    let conflicts := checkSchedulingConflicts store s.student s.tutor newStart newEnd (some s.id)
    if conflicts ≠ [] then .error (.schedulingConflict conflicts)
    else .ok { s with scheduledStart := newStart, scheduledEnd := newEnd, status := .scheduled }

/-- The cancel route: reason must be non-empty (validator), caller must be a
participant, status must be scheduled or confirmed; with less than 24 hours
notice an admin note is recorded (the source interpolates the hour count
into the note text; the note is rendered here as a fixed marker string),
then the status becomes cancelled and the cancellation record is written. -/
def cancelSession (s : Session) (callerId : Nat) (reason : String)
    (now : Int) : Except LcError Session :=
  if reason = "" then .error .emptyReason
  else if callerId ≠ s.student ∧ callerId ≠ s.tutor then .error .forbidden
  else if ¬ (s.status = .scheduled ∨ s.status = .confirmed) then .error .invalidState
  else
    let s1 := if s.scheduledStart - now < 24 * 60 * 60 * 1000
      then { s with notesAdmin := some "Late cancellation" } else s
    .ok { s1 with status := .cancelled,
                  cancellation := some ⟨callerId, now, reason⟩ }

/-- The start route: caller must be a participant, status scheduled or
confirmed, and the scheduled start at most 15 minutes away (the source
compares the float quotient of the millisecond difference by 60000 against
15, which coincides with the integer millisecond comparison used here);
then the status becomes ongoing and actualStart is set to now. -/
def startSession (s : Session) (callerId : Nat) (now : Int) :
    Except LcError Session :=
  if callerId ≠ s.student ∧ callerId ≠ s.tutor then .error .forbidden
  else if ¬ (s.status = .scheduled ∨ s.status = .confirmed) then .error .invalidState
  else if s.scheduledStart - now > 15 * 60000 then .error .tooEarly
  else .ok { s with status := .ongoing, actualStart := some now }

/-- The successful-end update of a session: the status becomes completed,
actualEnd is set to now, and a non-empty notes string is attached to the
caller's own note field, leaving the other party's note untouched. -/
def endUpdate (s : Session) (callerId : Nat) (notes : Option String)
    (now : Int) : Session :=
  match notes with
  | none => { s with status := .completed, actualEnd := some now }
  | some n =>
    if n = "" then { s with status := .completed, actualEnd := some now }
    else if callerId = s.student then
      { s with status := .completed, actualEnd := some now, notesStudent := some n }
    else
      { s with status := .completed, actualEnd := some now, notesTutor := some n }

/-- The end route: caller must be a participant and the status ongoing; on
success the session is updated per endUpdate and the response reports the
duration actualEnd minus actualStart (zero stands for the absent
actualStart, which the source would render as NaN). -/
def endSession (s : Session) (callerId : Nat) (notes : Option String)
    (now : Int) : Except LcError (Session × Int) :=
  if callerId ≠ s.student ∧ callerId ≠ s.tutor then .error .forbidden
  else if s.status ≠ .ongoing then .error .invalidState
  else
    .ok (endUpdate s callerId notes now,
      (endUpdate s callerId notes now).actualEnd.getD 0 -
        (endUpdate s callerId notes now).actualStart.getD 0)

/-- C3 (amended): for a session with status scheduled or confirmed, a
participant caller and a valid future window with no conflicts, Reschedule
succeeds, replaces scheduledStart and scheduledEnd with the new window and
resets the status to scheduled (clearing any prior confirmed state); the
reminder sub-document, including the reminder-sent flag, is left unchanged
rather than cleared. -/
theorem c3_reschedule_effect (store : List Session) (s : Session)
    (callerId : Nat) (ns ne now : Int)
    (hcaller : callerId = s.student ∨ callerId = s.tutor)
    (hstatus : s.status = .scheduled ∨ s.status = .confirmed)
    (hwin : ns < ne) (hfut : now < ns)
    (hconf : checkSchedulingConflicts store s.student s.tutor ns ne (some s.id) = []) :
    reschedule store s callerId ns ne now =
      .ok { s with scheduledStart := ns, scheduledEnd := ne, status := .scheduled } ∧
    ∀ t, reschedule store s callerId ns ne now = .ok t →
      t.reminders = s.reminders ∧ t.scheduledStart = ns ∧
      t.scheduledEnd = ne ∧ t.status = .scheduled := by
  have h1 : ¬(callerId ≠ s.student ∧ callerId ≠ s.tutor) := by tauto
  have h2 : ¬¬(s.status = .scheduled ∨ s.status = .confirmed) := by tauto
  have h3 : ¬ ns ≥ ne := by omega
  have h4 : ¬ ns ≤ now := by omega
  have hres : reschedule store s callerId ns ne now =
      .ok { s with scheduledStart := ns, scheduledEnd := ne, status := .scheduled } := by
    simp only [reschedule, if_neg h1, if_neg h2, if_neg h3, if_neg h4, hconf,
      ne_eq, not_true_eq_false, if_false]
  refine ⟨hres, fun t ht => ?_⟩
  rw [hres] at ht
  cases ht
  exact ⟨rfl, rfl, rfl, rfl⟩

/-- Witness for c3_reschedule_effect on a concrete confirmed session. -/
theorem c3_reschedule_effect_witness :
    let s : Session := ⟨1, 1, 2, 1000000, 2000000, none, none, .confirmed,
      ⟨true, some 5⟩, ⟨false, none, none, none⟩, none, none, none, none⟩
    reschedule [s] s 1 3000000 4000000 0 =
      .ok { s with scheduledStart := 3000000, scheduledEnd := 4000000,
                   status := .scheduled } ∧
    ∀ t, reschedule [s] s 1 3000000 4000000 0 = .ok t →
      t.reminders = s.reminders ∧ t.scheduledStart = 3000000 ∧
      t.scheduledEnd = 4000000 ∧ t.status = .scheduled :=
  c3_reschedule_effect [⟨1, 1, 2, 1000000, 2000000, none, none, .confirmed,
      ⟨true, some 5⟩, ⟨false, none, none, none⟩, none, none, none, none⟩]
    ⟨1, 1, 2, 1000000, 2000000, none, none, .confirmed,
      ⟨true, some 5⟩, ⟨false, none, none, none⟩, none, none, none, none⟩
    1 3000000 4000000 0 (Or.inl rfl) (Or.inr rfl) (by decide) (by decide) rfl

/-- C3 counterexample: a confirmed session with the reminder-sent flag
already true is successfully rescheduled to a conflict-free future window,
and the result still carries reminder-sent true: the flag is not cleared,
so the rescheduled session is not again eligible for a reminder. -/
theorem c3_counterexample :
    let s : Session := ⟨1, 1, 2, 1000000, 2000000, none, none, .confirmed,
      ⟨true, some 5⟩, ⟨false, none, none, none⟩, none, none, none, none⟩
    reschedule [s] s 1 3000000 4000000 0 =
      .ok { s with scheduledStart := 3000000, scheduledEnd := 4000000,
                   status := .scheduled } ∧
    ({ s with scheduledStart := 3000000, scheduledEnd := 4000000,
              status := .scheduled } : Session).reminders.sent = true ∧
    s.reminders.sent = true ∧ s.status = .confirmed := by
  exact ⟨rfl, rfl, rfl, rfl⟩

/-- C5: with the caller a participant and the status scheduled or confirmed,
Start fails exactly when it is called more than 15 minutes before
scheduledStart; at exactly 15 minutes before, and at any later time with no
upper bound on lateness, it succeeds and sets the status to ongoing and
actualStart to the current time. -/
theorem c5_start_window (s : Session) (callerId : Nat) (now : Int)
    (hcaller : callerId = s.student ∨ callerId = s.tutor)
    (hstatus : s.status = .scheduled ∨ s.status = .confirmed) :
    (startSession s callerId now = .error .tooEarly ↔
      s.scheduledStart - now > 15 * 60000) ∧
    (s.scheduledStart - now ≤ 15 * 60000 →
      startSession s callerId now =
        .ok { s with status := .ongoing, actualStart := some now }) := by
  have h1 : ¬(callerId ≠ s.student ∧ callerId ≠ s.tutor) := by tauto
  have h2 : ¬¬(s.status = .scheduled ∨ s.status = .confirmed) := by tauto
  constructor
  · constructor
    · intro h
      by_contra hlt
      simp only [startSession, if_neg h1, if_neg h2, if_neg hlt] at h
      exact absurd h (by simp)
    · intro h
      simp only [startSession, if_neg h1, if_neg h2, if_pos h]
  · intro h
    have h3 : ¬ (s.scheduledStart - now > 15 * 60000) := by omega
    simp only [startSession, if_neg h1, if_neg h2, if_neg h3]

/-- Witness for c5_start_window at exactly 15 minutes before the scheduled
start. -/
theorem c5_start_window_witness :
    let s : Session := ⟨1, 1, 2, 1000000, 2000000, none, none, .scheduled,
      ⟨false, none⟩, ⟨false, none, none, none⟩, none, none, none, none⟩
    (startSession s 1 100000 = .error .tooEarly ↔
      s.scheduledStart - 100000 > 15 * 60000) ∧
    (s.scheduledStart - 100000 ≤ 15 * 60000 →
      startSession s 1 100000 =
        .ok { s with status := .ongoing, actualStart := some 100000 }) :=
  c5_start_window ⟨1, 1, 2, 1000000, 2000000, none, none, .scheduled,
      ⟨false, none⟩, ⟨false, none, none, none⟩, none, none, none, none⟩
    1 100000 (Or.inl rfl) (Or.inl rfl)

/-- C6: End fails unless the current status is ongoing; on success by a
participant the status becomes completed, actualEnd is set to the current
time, the reported duration equals actualEnd minus actualStart; and
completed is permanent: no subsequent Reschedule, Cancel, Start or End
succeeds on a completed session. -/
theorem c6_end_permanence :
    (∀ (s : Session) (c : Nat) (nt : Option String) (now : Int),
      s.status ≠ .ongoing → ∀ r, endSession s c nt now ≠ .ok r) ∧
    (∀ (s : Session) (c : Nat) (nt : Option String) (now a : Int),
      (c = s.student ∨ c = s.tutor) → s.status = .ongoing →
      s.actualStart = some a →
      (endSession s c nt now).map
          (fun p => (p.1.status, p.1.actualStart, p.1.actualEnd, p.2)) =
        .ok (.completed, some a, some now, now - a)) ∧
    (∀ (s : Session), s.status = .completed →
      (∀ store c ns ne now r, reschedule store s c ns ne now ≠ .ok r) ∧
      (∀ c reason now r, cancelSession s c reason now ≠ .ok r) ∧
      (∀ c now r, startSession s c now ≠ .ok r) ∧
      (∀ c nt now r, endSession s c nt now ≠ .ok r)) := by
  refine ⟨?_, ?_, ?_⟩
  · intro s c nt now h r
    simp only [endSession]
    split <;> simp_all
  · intro s c nt now a hc hst ha
    have h1 : ¬(c ≠ s.student ∧ c ≠ s.tutor) := by tauto
    have h2 : ¬(s.status ≠ .ongoing) := by simp [hst]
    simp only [endSession, if_neg h1, if_neg h2]
    cases nt with
    | none => simp [endUpdate, Except.map, ha]
    | some n =>
      by_cases hn : n = ""
      · simp [endUpdate, hn, Except.map, ha]
      · by_cases hcs : c = s.student
        · simp [endUpdate, hn, hcs, Except.map, ha]
        · simp [endUpdate, hn, hcs, Except.map, ha]
  · intro s h
    have hns : ¬ (s.status = .scheduled ∨ s.status = .confirmed) := by
      simp [h]
    refine ⟨?_, ?_, ?_, ?_⟩
    · intro store c ns ne now r
      simp only [reschedule]
      split <;> simp_all
    · intro c reason now r
      simp only [cancelSession]
      split <;> simp_all
      split <;> simp
    · intro c now r
      simp only [startSession]
      split <;> simp_all
    · intro c nt now r
      simp only [endSession]
      split <;> simp_all

/-- Witness for c6_end_permanence: ending a concrete ongoing session. -/
theorem c6_end_permanence_witness :
    (endSession ⟨1, 1, 2, 0, 100, some 50, none, .ongoing, ⟨false, none⟩,
        ⟨false, none, none, none⟩, none, none, none, none⟩ 1 none 300).map
        (fun p => (p.1.status, p.1.actualStart, p.1.actualEnd, p.2)) =
      .ok (.completed, some 50, some 300, 250) :=
  c6_end_permanence.2.1 ⟨1, 1, 2, 0, 100, some 50, none, .ongoing,
      ⟨false, none⟩, ⟨false, none, none, none⟩, none, none, none, none⟩
    1 none 300 50 (Or.inl rfl) rfl rfl

/-- Gregorian leap-year test. -/
def isLeapYear (y : Int) : Bool :=
  (Int.emod y 4 == 0 && Int.emod y 100 != 0) || Int.emod y 400 == 0

/-- Last day of a month in the Gregorian calendar. -/
def lastDayOfMonth (y m : Int) : Int :=
  if m = 2 then (if isLeapYear y then 29 else 28)
  else if m = 4 ∨ m = 6 ∨ m = 9 ∨ m = 11 then 30
  else 31

/-- Days since 1970-01-01 of a Gregorian date (floor-division form of the
standard civil-calendar conversion). -/
def daysFromCivil (y m d : Int) : Int :=
  let y2 := if m ≤ 2 then y - 1 else y
  let era := Int.fdiv y2 400
  let yoe := y2 - era * 400
  let mp := Int.emod (m + 9) 12
  let doy := Int.fdiv (153 * mp + 2) 5 + d - 1
  let doe := yoe * 365 + Int.fdiv yoe 4 - Int.fdiv yoe 100 + doy
  era * 146097 + doe - 719468

/-- Gregorian date of a day count since 1970-01-01. -/
def civilFromDays (z0 : Int) : Int × Int × Int :=
  let z := z0 + 719468
  let era := Int.fdiv z 146097
  let doe := z - era * 146097
  let yoe := Int.fdiv (doe - Int.fdiv doe 1460 + Int.fdiv doe 36524 - Int.fdiv doe 146096) 365
  let y := yoe + era * 400
  let doy := doe - (365 * yoe + Int.fdiv yoe 4 - Int.fdiv yoe 100)
  let mp := Int.fdiv (5 * doy + 2) 153
  let d := doy - Int.fdiv (153 * mp + 2) 5 + 1
  let m := mp + (if mp < 10 then 3 else -9)
  (if m ≤ 2 then y + 1 else y, m, d)

/-- One calendar month later, clamping the day of month to the target
month's length and keeping the time of day, matching the add-one-month
operation of the date library used by the recurrence loop. -/
def addOneMonthMs (t : Int) : Int :=
  let day := Int.fdiv t 86400000
  let msOfDay := t - 86400000 * day
  let c := civilFromDays day
  let y2 := if c.2.1 = 12 then c.1 + 1 else c.1
  let m2 := if c.2.1 = 12 then 1 else c.2.1 + 1
  let d2 := min c.2.2 (lastDayOfMonth y2 m2)
  daysFromCivil y2 m2 d2 * 86400000 + msOfDay

/-- The frequency step of the recurrence loop: 7 days, 14 days, or one
calendar month. -/
def addFrequency : Frequency → Int → Int
  | .weekly, t => t + 7 * 86400000
  | .biweekly, t => t + 14 * 86400000
  | .monthly, t => addOneMonthMs t

/-- The booking payload shared by all sessions of a recurring series. -/
structure SessionData where
  student : Nat
  tutor : Nat
  scheduledStart : Int
  scheduledEnd : Int
deriving DecidableEq, Repr

/-- A freshly persisted session: status scheduled, reminder not sent, no
actual times, no cancellation, no notes. -/
def newSession (id : Nat) (d : SessionData) (rec : Recurring) : Session :=
  ⟨id, d.student, d.tutor, d.scheduledStart, d.scheduledEnd, none, none,
   .scheduled, ⟨false, none⟩, rec, none, none, none, none⟩

/-- The while loop of createRecurringSessions: advance the current start by
the frequency step while it stays strictly before the end date, persisting a
child with the preserved duration and a parent back-reference at each
advanced start. Fuel bounds the iteration count of the source's while loop;
every list produced for any fuel is a prefix of the loop's output. -/
def recurChildren (d : SessionData) (freq : Frequency)
    (endDate duration : Int) (parentId : Nat) :
    Nat → Int → Nat → List Session
  | 0, _, _ => []
  | fuel + 1, cur, nid =>
    if cur < endDate then
      if addFrequency freq cur < endDate then
        newSession nid
            { d with scheduledStart := addFrequency freq cur,
                     scheduledEnd := addFrequency freq cur + duration }
            ⟨true, some freq, some endDate, some parentId⟩ ::
          recurChildren d freq endDate duration parentId fuel (addFrequency freq cur) (nid + 1)
      else []
    else []

/-- createRecurringSessions from the sessions router: the parent session at
its original window followed by the generated children. -/
def createRecurringSessions (d : SessionData) (freq : Frequency)
    (endDate : Int) (nextId fuel : Nat) : List Session :=
  let duration := d.scheduledEnd - d.scheduledStart
  let parent := newSession nextId d ⟨true, some freq, some endDate, none⟩
  parent :: recurChildren d freq endDate duration parent.id fuel d.scheduledStart (nextId + 1)

theorem recurChildren_get (d : SessionData) (freq : Frequency)
    (endDate duration : Int) (parentId : Nat) :
    ∀ (fuel : Nat) (cur : Int) (nid i : Nat) (x : Session),
      (recurChildren d freq endDate duration parentId fuel cur nid).get? i = some x →
      x = newSession (nid + i)
          { d with scheduledStart := (addFrequency freq)^[i + 1] cur,
                   scheduledEnd := (addFrequency freq)^[i + 1] cur + duration }
          ⟨true, some freq, some endDate, some parentId⟩ ∧
      (addFrequency freq)^[i + 1] cur < endDate := by
  intro fuel
  induction fuel with
  | zero =>
    intro cur nid i x h
    simp [recurChildren] at h
  | succ n ih =>
    intro cur nid i x h
    by_cases h1 : cur < endDate
    · by_cases h2 : addFrequency freq cur < endDate
      · have hcons : recurChildren d freq endDate duration parentId (n + 1) cur nid =
            newSession nid
                { d with scheduledStart := addFrequency freq cur,
                         scheduledEnd := addFrequency freq cur + duration }
                ⟨true, some freq, some endDate, some parentId⟩ ::
              recurChildren d freq endDate duration parentId n
                (addFrequency freq cur) (nid + 1) := by
          simp [recurChildren, h1, h2]
        rw [hcons] at h
        cases i with
        | zero =>
          simp only [List.get?_cons_zero, Option.some_inj] at h
          refine ⟨?_, by simpa using h2⟩
          rw [← h]
          simp
        | succ j =>
          rw [List.get?_cons_succ] at h
          have hrec := ih (addFrequency freq cur) (nid + 1) j x h
          refine ⟨?_, ?_⟩
          · rw [hrec.1]
            have harith : nid + 1 + j = nid + (j + 1) := by omega
            have hiter : (addFrequency freq)^[j + 1] (addFrequency freq cur) =
                (addFrequency freq)^[j + 1 + 1] cur := by
              simp [Function.iterate_succ_apply]
            rw [harith, hiter]
          · have hiter : (addFrequency freq)^[j + 1] (addFrequency freq cur) =
                (addFrequency freq)^[j + 1 + 1] cur := by
              simp [Function.iterate_succ_apply]
            rw [← hiter]
            exact hrec.2
      · simp [recurChildren, h1, h2] at h
    · simp [recurChildren, h1] at h

/-- C4: the Recurrence Expander emits the parent session at its original
window first; every generated child session has a start obtained from the
base start by iterating the frequency step (7 days for weekly, 14 days for
biweekly, one calendar month for monthly), an end preserving the original
duration, a start strictly before the end date, and a parent back-reference;
and the concrete weekly example starting 2025-01-06T10:00 to 11:00 UTC with
end date 2025-01-27 yields exactly the sessions starting January 6, 13 and
20, the children referencing the parent. -/
theorem c4_recurrence_expander :
    (∀ (d : SessionData) (freq : Frequency) (endDate : Int) (nid fuel : Nat),
      createRecurringSessions d freq endDate nid fuel =
        newSession nid d ⟨true, some freq, some endDate, none⟩ ::
          recurChildren d freq endDate (d.scheduledEnd - d.scheduledStart)
            nid fuel d.scheduledStart (nid + 1)) ∧
    (∀ (d : SessionData) (freq : Frequency) (endDate duration : Int)
       (parentId fuel : Nat) (cur : Int) (nid i : Nat) (x : Session),
      (recurChildren d freq endDate duration parentId fuel cur nid).get? i = some x →
      x = newSession (nid + i)
          { d with scheduledStart := (addFrequency freq)^[i + 1] cur,
                   scheduledEnd := (addFrequency freq)^[i + 1] cur + duration }
          ⟨true, some freq, some endDate, some parentId⟩ ∧
      (addFrequency freq)^[i + 1] cur < endDate) ∧
    (createRecurringSessions ⟨1, 2, 1736157600000, 1736161200000⟩
        .weekly 1737936000000 1 10).map Session.scheduledStart =
      [1736157600000, 1736762400000, 1737367200000] ∧
    (createRecurringSessions ⟨1, 2, 1736157600000, 1736161200000⟩
        .weekly 1737936000000 1 10).map (fun s => s.recurring.parentSession) =
      [none, some 1, some 1] := by
  refine ⟨fun d freq endDate nid fuel => rfl,
    fun d freq endDate duration parentId fuel cur nid i x h =>
      recurChildren_get d freq endDate duration parentId fuel cur nid i x h,
    ?_, ?_⟩
  · rfl
  · rfl

/-- Witness for c4_recurrence_expander: the first child of a concrete weekly
expansion starts one week after the base and carries the parent reference. -/
theorem c4_recurrence_expander_witness :
    newSession 2 ⟨1, 2, 604800000, 604800000 + 3600000⟩
        ⟨true, some .weekly, some 1300000000, some 7⟩ =
      newSession (2 + 0)
        { (⟨1, 2, 0, 3600000⟩ : SessionData) with
            scheduledStart := (addFrequency .weekly)^[0 + 1] 0,
            scheduledEnd := (addFrequency .weekly)^[0 + 1] 0 + 3600000 }
        ⟨true, some .weekly, some 1300000000, some 7⟩ ∧
    (addFrequency .weekly)^[0 + 1] (0 : Int) < 1300000000 :=
  c4_recurrence_expander.2.1 ⟨1, 2, 0, 3600000⟩ .weekly 1300000000 3600000
    7 5 0 2 0
    (newSession 2 ⟨1, 2, 604800000, 604800000 + 3600000⟩
      ⟨true, some .weekly, some 1300000000, some 7⟩) (by rfl)

/-- User roles relevant to booking (User schema). -/
inductive Role
  | student
  | tutor
  | both
deriving DecidableEq, Repr

/-- One weekly availability slot of a tutor: a weekday (0 is Sunday through
6 is Saturday) and start and end times as minutes since midnight. The source
stores the times as zero-padded HH:mm strings and compares them
lexicographically, which coincides with the numeric order of minute
counts. -/
structure AvailabilitySlot where
  day : Int
  startTime : Int
  endTime : Int
deriving DecidableEq, Repr

/-- The slice of the User entity the booking flow reads. -/
structure User where
  role : Role
  availability : List AvailabilitySlot
deriving DecidableEq, Repr

/-- Day number since the epoch of an epoch-millisecond instant; division
and remainder on Int are Euclidean, which for the positive constants used
here coincides with flooring. -/
def dayOfEpochMs (t : Int) : Int := t / 86400000

/-- Weekday of an instant, 0 is Sunday; the epoch day 1970-01-01 was a
Thursday (weekday 4). -/
def weekdayOf (t : Int) : Int := (dayOfEpochMs t + 4) % 7

/-- Minutes since midnight of an instant, truncating seconds, matching the
HH:mm formatting in the source. -/
def minutesOfDay (t : Int) : Int := (t % 86400000) / 60000

/-- checkTutorAvailability from the sessions router: some declared slot lies
on the weekday of the window start, opens at or before the start's time of
day, and closes at or after the end's time of day. -/
def checkTutorAvailability (tutor : User) (wstart wend : Int) : Bool :=
  tutor.availability.any (fun slot =>
    decide (slot.day = weekdayOf wstart)
      && decide (slot.startTime ≤ minutesOfDay wstart)
      && decide (slot.endTime ≥ minutesOfDay wend))

/-- The availability condition in the spec's words, for comparison with the
source predicate: the requested window is fully contained in the occurrence
of a declared weekly slot on the start's day, as an inclusion of concrete
millisecond intervals. -/
def specWindowContained (avail : List AvailabilitySlot) (wstart wend : Int) : Prop :=
  ∃ slot ∈ avail, slot.day = weekdayOf wstart ∧
    dayOfEpochMs wstart * 86400000 + slot.startTime * 60000 ≤ wstart ∧
    wend ≤ dayOfEpochMs wstart * 86400000 + slot.endTime * 60000

instance specWindowContainedDecidable (avail : List AvailabilitySlot)
    (wstart wend : Int) : Decidable (specWindowContained avail wstart wend) := by
  unfold specWindowContained
  infer_instance

theorem slot_condition_iff (slot : AvailabilitySlot) (wstart wend : Int)
    (hsame : dayOfEpochMs wstart = dayOfEpochMs wend)
    (ha : (60000 : Int) ∣ wstart) (hb : (60000 : Int) ∣ wend) :
    (slot.day = weekdayOf wstart ∧ slot.startTime ≤ minutesOfDay wstart ∧
      slot.endTime ≥ minutesOfDay wend) ↔
    (slot.day = weekdayOf wstart ∧
      dayOfEpochMs wstart * 86400000 + slot.startTime * 60000 ≤ wstart ∧
      wend ≤ dayOfEpochMs wstart * 86400000 + slot.endTime * 60000) := by
  simp only [minutesOfDay, dayOfEpochMs] at hsame ⊢
  constructor
  · rintro ⟨hday, hst, het⟩
    exact ⟨hday, by omega, by omega⟩
  · rintro ⟨hday, hst, het⟩
    exact ⟨hday, by omega, by omega⟩

theorem checkTutorAvailability_eq_spec (t : User) (wstart wend : Int)
    (hsame : dayOfEpochMs wstart = dayOfEpochMs wend)
    (ha : (60000 : Int) ∣ wstart) (hb : (60000 : Int) ∣ wend) :
    checkTutorAvailability t wstart wend = true ↔
      specWindowContained t.availability wstart wend := by
  rw [checkTutorAvailability, List.any_eq_true]
  unfold specWindowContained
  constructor
  · rintro ⟨slot, hmem, hp⟩
    simp only [Bool.and_eq_true, decide_eq_true_eq] at hp
    exact ⟨slot, hmem,
      (slot_condition_iff slot wstart wend hsame ha hb).mp ⟨hp.1.1, hp.1.2, hp.2⟩⟩
  · rintro ⟨slot, hmem, hp⟩
    refine ⟨slot, hmem, ?_⟩
    have h := (slot_condition_iff slot wstart wend hsame ha hb).mpr hp
    simp only [Bool.and_eq_true, decide_eq_true_eq]
    exact ⟨⟨h.1, h.2.1⟩, h.2.2⟩

/-- The recurrence descriptor of a booking request. -/
structure RecurringRequest where
  isRecurring : Bool
  frequency : Frequency
  endDate : Int
deriving DecidableEq, Repr

/-- A booking request after validator normalization. -/
structure BookRequest where
  tutorId : Nat
  scheduledStart : Int
  scheduledEnd : Int
  recurring : Option RecurringRequest
deriving DecidableEq, Repr

/-- Outcomes of the book route, one constructor per distinct response. -/
inductive BookOutcome
  | invalidWindow
  | notFuture
  | tutorNotFound
  | schedulingConflict (conflicts : List Session)
  | tutorUnavailable
  | created (sessions : List Session)
deriving DecidableEq, Repr

/-- The book route: window validation, future check, tutor lookup and role
check, conflict check on the requested window, availability check on the
requested window, then creation of a single session or of the recurring
series. -/
def book (store : List Session) (tutor : Option User) (studentId : Nat)
    (req : BookRequest) (now : Int) (nextId fuel : Nat) : BookOutcome :=
  if req.scheduledStart ≥ req.scheduledEnd then .invalidWindow
  else if req.scheduledStart ≤ now then .notFuture
  else
    match tutor with
    | none => .tutorNotFound
    | some t =>
      if ¬ (t.role = .tutor ∨ t.role = .both) then .tutorNotFound
      else if checkSchedulingConflicts store studentId req.tutorId
          req.scheduledStart req.scheduledEnd none ≠ [] then
        .schedulingConflict (checkSchedulingConflicts store studentId req.tutorId
          req.scheduledStart req.scheduledEnd none)
      else if checkTutorAvailability t req.scheduledStart req.scheduledEnd = false then
        .tutorUnavailable
      else
        match req.recurring with
        | some rr =>
          if rr.isRecurring then
            .created (createRecurringSessions
              ⟨studentId, req.tutorId, req.scheduledStart, req.scheduledEnd⟩
              rr.frequency rr.endDate nextId fuel)
          else .created [newSession nextId
            ⟨studentId, req.tutorId, req.scheduledStart, req.scheduledEnd⟩
            ⟨false, none, none, none⟩]
        | none => .created [newSession nextId
            ⟨studentId, req.tutorId, req.scheduledStart, req.scheduledEnd⟩
            ⟨false, none, none, none⟩]

/-- C7 (amended): for a Book request that passes validation, the tutor role
check and the conflict check, the booking fails with TutorUnavailable
exactly when no declared slot lies on the start's weekday with an opening
time at or before the start's time of day and a closing time at or after
the end's time of day, and otherwise a session list is created; for windows
contained in a single calendar day with minute-aligned endpoints this slot
condition coincides with full containment of the window in a declared
slot's weekly occurrence. -/
theorem c7_book_availability (store : List Session) (t : User)
    (studentId : Nat) (req : BookRequest) (now : Int) (nextId fuel : Nat)
    (hw : req.scheduledStart < req.scheduledEnd)
    (hf : now < req.scheduledStart)
    (hrole : t.role = .tutor ∨ t.role = .both)
    (hconf : checkSchedulingConflicts store studentId req.tutorId
      req.scheduledStart req.scheduledEnd none = []) :
    (book store (some t) studentId req now nextId fuel = .tutorUnavailable ↔
      checkTutorAvailability t req.scheduledStart req.scheduledEnd = false) ∧
    ((∃ l, book store (some t) studentId req now nextId fuel = .created l) ↔
      checkTutorAvailability t req.scheduledStart req.scheduledEnd = true) ∧
    (dayOfEpochMs req.scheduledStart = dayOfEpochMs req.scheduledEnd →
      (60000 : Int) ∣ req.scheduledStart → (60000 : Int) ∣ req.scheduledEnd →
      (checkTutorAvailability t req.scheduledStart req.scheduledEnd = true ↔
        specWindowContained t.availability req.scheduledStart req.scheduledEnd)) := by
  have h1 : ¬ (req.scheduledStart ≥ req.scheduledEnd) := by omega
  have h2 : ¬ (req.scheduledStart ≤ now) := by omega
  have h3 : ¬¬ (t.role = .tutor ∨ t.role = .both) := by tauto
  have hbook : book store (some t) studentId req now nextId fuel =
      (if checkTutorAvailability t req.scheduledStart req.scheduledEnd = false then
        .tutorUnavailable
      else
        match req.recurring with
        | some rr =>
          if rr.isRecurring then
            .created (createRecurringSessions
              ⟨studentId, req.tutorId, req.scheduledStart, req.scheduledEnd⟩
              rr.frequency rr.endDate nextId fuel)
          else .created [newSession nextId
            ⟨studentId, req.tutorId, req.scheduledStart, req.scheduledEnd⟩
            ⟨false, none, none, none⟩]
        | none => .created [newSession nextId
            ⟨studentId, req.tutorId, req.scheduledStart, req.scheduledEnd⟩
            ⟨false, none, none, none⟩]) := by
    simp only [book, if_neg h1, if_neg h2, if_neg h3, hconf, ne_eq,
      not_true_eq_false, if_false]
  refine ⟨?_, ?_, fun hs ha hb =>
    checkTutorAvailability_eq_spec t req.scheduledStart req.scheduledEnd hs ha hb⟩
  · by_cases hav : checkTutorAvailability t req.scheduledStart req.scheduledEnd = false
    · rw [hbook, if_pos hav]
      simp [hav]
    · rw [hbook, if_neg hav]
      simp only [Bool.not_eq_false] at hav
      simp only [hav]
      cases req.recurring with
      | none => simp
      | some rr =>
        by_cases hr : rr.isRecurring <;> simp [hr]
  · by_cases hav : checkTutorAvailability t req.scheduledStart req.scheduledEnd = false
    · rw [hbook, if_pos hav]
      constructor
      · rintro ⟨l, hl⟩
        cases hl
      · intro h
        rw [h] at hav
        cases hav
    · rw [hbook, if_neg hav]
      simp only [Bool.not_eq_false] at hav
      simp only [hav, iff_true]
      cases req.recurring with
      | none => exact ⟨_, rfl⟩
      | some rr =>
        by_cases hr : rr.isRecurring
        · exact ⟨createRecurringSessions
            ⟨studentId, req.tutorId, req.scheduledStart, req.scheduledEnd⟩
            rr.frequency rr.endDate nextId fuel, by simp [hr]⟩
        · exact ⟨[newSession nextId
            ⟨studentId, req.tutorId, req.scheduledStart, req.scheduledEnd⟩
            ⟨false, none, none, none⟩], by simp [hr]⟩

/-- Witness for c7_book_availability on a concrete available booking. -/
theorem c7_book_availability_witness :
    let t : User := ⟨.tutor, [⟨1, 540, 720⟩]⟩
    let req : BookRequest := ⟨2, 1736157600000, 1736161200000, none⟩
    (book [] (some t) 1 req 0 10 10 = .tutorUnavailable ↔
      checkTutorAvailability t req.scheduledStart req.scheduledEnd = false) ∧
    ((∃ l, book [] (some t) 1 req 0 10 10 = .created l) ↔
      checkTutorAvailability t req.scheduledStart req.scheduledEnd = true) ∧
    (dayOfEpochMs req.scheduledStart = dayOfEpochMs req.scheduledEnd →
      (60000 : Int) ∣ req.scheduledStart → (60000 : Int) ∣ req.scheduledEnd →
      (checkTutorAvailability t req.scheduledStart req.scheduledEnd = true ↔
        specWindowContained t.availability req.scheduledStart req.scheduledEnd)) :=
  c7_book_availability [] ⟨.tutor, [⟨1, 540, 720⟩]⟩ 1
    ⟨2, 1736157600000, 1736161200000, none⟩ 0 10 10
    (by decide) (by decide) (Or.inl rfl) rfl

/-- C7 counterexample: a window from Monday 2025-01-06 10:00 UTC to
Wednesday 2025-01-08 11:00 UTC is not contained in the tutor's sole slot
(Monday 09:00 to 12:00), but the availability check only compares the
start's weekday and the HH:mm projections, so the booking is created
instead of failing with TutorUnavailable. -/
theorem c7_counterexample :
    book [] (some ⟨.tutor, [⟨1, 540, 720⟩]⟩) 1
        ⟨2, 1736157600000, 1736334000000, none⟩ 0 10 10 =
      .created [newSession 10 ⟨1, 2, 1736157600000, 1736334000000⟩
        ⟨false, none, none, none⟩] ∧
    ¬ specWindowContained [⟨1, 540, 720⟩] 1736157600000 1736334000000 := by
  exact ⟨rfl, by decide⟩

/-- Selection predicate of the reminder cron sweep: scheduled start between
now and now plus 24 hours, status scheduled or confirmed, reminder not yet
sent. -/
def reminderDue (now : Int) (s : Session) : Bool :=
  decide (now ≤ s.scheduledStart)
    && decide (s.scheduledStart ≤ now + 24 * 60 * 60 * 1000)
    && (s.status == .scheduled || s.status == .confirmed)
    && (s.reminders.sent == false)

/-- The per-session effect of the sweep: a due session gets its reminder
flag set together with a sent-at timestamp; any other session is left
unchanged. -/
def markReminded (now : Int) (s : Session) : Session :=
  if reminderDue now s then { s with reminders := ⟨true, some now⟩ } else s

/-- One run of the reminder sweep over the store: first component the
sessions selected for sending (notification fan-out is external), second
component the updated store. -/
def reminderSweep (now : Int) (store : List Session) :
    List Session × List Session :=
  (store.filter (reminderDue now), store.map (markReminded now))

/-- C8: each sweep run selects exactly the sessions whose scheduled start
lies between now and now plus 24 hours, whose status is scheduled or
confirmed and whose reminder-sent flag is false; each selected session's
flag is set to true with a timestamp; and once marked, a session is never
due again at any later sweep, so a repeated sweep over the updated store
only sends to sessions whose flag was still false. -/
theorem c8_reminder_sweep_idempotent :
    (∀ (now : Int) (store : List Session) (s : Session),
      s ∈ (reminderSweep now store).1 ↔
        s ∈ store ∧ now ≤ s.scheduledStart ∧
        s.scheduledStart ≤ now + 24 * 60 * 60 * 1000 ∧
        (s.status = .scheduled ∨ s.status = .confirmed) ∧
        s.reminders.sent = false) ∧
    (∀ (now : Int) (s : Session), reminderDue now s = true →
      (markReminded now s).reminders = ⟨true, some now⟩) ∧
    (∀ (now now2 : Int) (s : Session), reminderDue now s = true →
      reminderDue now2 (markReminded now s) = false) ∧
    (∀ (now now2 : Int) (store : List Session) (s : Session),
      s ∈ (reminderSweep now2 (reminderSweep now store).2).1 →
      s.reminders.sent = false) := by
  refine ⟨?_, ?_, ?_, ?_⟩
  · intro now store s
    simp [reminderSweep, List.mem_filter, reminderDue, and_assoc]
  · intro now s h
    simp [markReminded, h]
  · intro now now2 s h
    simp only [markReminded, if_pos h]
    simp [reminderDue]
  · intro now now2 store s h
    simp only [reminderSweep, List.mem_filter] at h
    have hdue := h.2
    simp only [reminderDue, Bool.and_eq_true, beq_iff_eq] at hdue
    exact hdue.2

/-- Witness for c8_reminder_sweep_idempotent: a concrete due session is
never selected again after being marked. -/
theorem c8_reminder_sweep_idempotent_witness :
    reminderDue 0 (markReminded 0 ⟨1, 1, 2, 1000, 2000, none, none,
      .scheduled, ⟨false, none⟩, ⟨false, none, none, none⟩,
      none, none, none, none⟩) = false :=
  c8_reminder_sweep_idempotent.2.2.1 0 0
    ⟨1, 1, 2, 1000, 2000, none, none, .scheduled, ⟨false, none⟩,
      ⟨false, none, none, none⟩, none, none, none, none⟩ (by decide)

/-- An invocation of one of the exposed lifecycle routes together with its
call-time environment. -/
inductive LifecycleOp
  | rescheduleOp (store : List Session) (callerId : Nat) (newStart newEnd now : Int)
  | cancelOp (callerId : Nat) (reason : String) (now : Int)
  | startOp (callerId : Nat) (now : Int)
  | endOp (callerId : Nat) (notes : Option String) (now : Int)

/-- Applying a lifecycle route to a session: failure leaves the stored
session unchanged (no partial application). -/
def applyOp (op : LifecycleOp) (s : Session) : Session :=
  match op with
  | .rescheduleOp store c ns ne now =>
    match reschedule store s c ns ne now with
    | .ok t => t
    | .error _ => s
  | .cancelOp c r now =>
    match cancelSession s c r now with
    | .ok t => t
    | .error _ => s
  | .startOp c now =>
    match startSession s c now with
    | .ok t => t
    | .error _ => s
  | .endOp c n now =>
    match endSession s c n now with
    | .ok p => p.1
    | .error _ => s

/-- Sequential application of lifecycle routes. -/
def applyOps (ops : List LifecycleOp) (s : Session) : Session :=
  ops.foldl (fun t op => applyOp op t) s

theorem reschedule_ok_status {store : List Session} {s : Session}
    {c : Nat} {ns ne now : Int} {t : Session}
    (h : reschedule store s c ns ne now = .ok t) : t.status = .scheduled := by
  simp only [reschedule] at h
  split_ifs at h <;> cases h <;> rfl

theorem cancel_ok_status {s : Session} {c : Nat} {r : String} {now : Int}
    {t : Session} (h : cancelSession s c r now = .ok t) :
    t.status = .cancelled := by
  simp only [cancelSession] at h
  split_ifs at h <;> cases h <;> rfl

theorem start_ok_status {s : Session} {c : Nat} {now : Int} {t : Session}
    (h : startSession s c now = .ok t) : t.status = .ongoing := by
  simp only [startSession] at h
  split_ifs at h <;> cases h <;> rfl

theorem end_ok_status {s : Session} {c : Nat} {n : Option String} {now : Int}
    {p : Session × Int} (h : endSession s c n now = .ok p) :
    p.1.status = .completed := by
  have hupd : ∀ (s2 : Session) (c2 : Nat) (n2 : Option String) (now2 : Int),
      (endUpdate s2 c2 n2 now2).status = .completed := by
    intro s2 c2 n2 now2
    cases n2 with
    | none => rfl
    | some v => simp only [endUpdate]; split_ifs <;> rfl
  simp only [endSession] at h
  split_ifs at h <;> cases h
  exact hupd s c n now

theorem applyOp_no_confirm (op : LifecycleOp) (s : Session)
    (h : (applyOp op s).status = .confirmed) : s.status = .confirmed := by
  cases op with
  | rescheduleOp store c ns ne now =>
    revert h
    simp only [applyOp]
    cases hres : reschedule store s c ns ne now with
    | ok t => intro h; rw [reschedule_ok_status hres] at h; cases h
    | error e => exact id
  | cancelOp c r now =>
    revert h
    simp only [applyOp]
    cases hres : cancelSession s c r now with
    | ok t => intro h; rw [cancel_ok_status hres] at h; cases h
    | error e => exact id
  | startOp c now =>
    revert h
    simp only [applyOp]
    cases hres : startSession s c now with
    | ok t => intro h; rw [start_ok_status hres] at h; cases h
    | error e => exact id
  | endOp c n now =>
    revert h
    simp only [applyOp]
    cases hres : endSession s c n now with
    | ok p => intro h; rw [end_ok_status hres] at h; cases h
    | error e => exact id

/-- C9: booking creates sessions with status scheduled, every exposed
lifecycle route assigns only scheduled, cancelled, ongoing or completed
(never confirmed), and consequently no sequence of exposed routes applied
to a session that is not confirmed can reach the confirmed status. -/
theorem c9_confirmed_unreachable :
    (∀ (id : Nat) (d : SessionData) (rec : Recurring),
      (newSession id d rec).status = .scheduled) ∧
    (∀ (op : LifecycleOp) (s : Session),
      (applyOp op s).status = .confirmed → s.status = .confirmed) ∧
    (∀ (ops : List LifecycleOp) (s : Session),
      s.status ≠ .confirmed → (applyOps ops s).status ≠ .confirmed) := by
  refine ⟨fun id d rec => rfl, applyOp_no_confirm, ?_⟩
  intro ops
  induction ops with
  | nil => intro s h; exact h
  | cons op rest ih =>
    intro s h
    have hstep : (applyOp op s).status ≠ .confirmed :=
      fun hc => h (applyOp_no_confirm op s hc)
    exact ih (applyOp op s) hstep

/-- Witness for c9_confirmed_unreachable: starting and ending a concrete
booked session never reaches confirmed. -/
theorem c9_confirmed_unreachable_witness :
    (applyOps [.startOp 1 999000, .endOp 1 none 5000000]
      (newSession 1 ⟨1, 2, 1000000, 2000000⟩ ⟨false, none, none, none⟩)).status ≠
      .confirmed :=
  c9_confirmed_unreachable.2.2 [.startOp 1 999000, .endOp 1 none 5000000]
    (newSession 1 ⟨1, 2, 1000000, 2000000⟩ ⟨false, none, none, none⟩)
    (by decide)

/-- Zero session, used only as a positional fallback for list indexing. -/
def emptySession : Session :=
  ⟨0, 0, 0, 0, 0, none, none, .scheduled, ⟨false, none⟩,
   ⟨false, none, none, none⟩, none, none, none, none⟩

/-- A stored active session of tutor 2 on 2025-01-13 from 10:30 to 11:30
UTC, overlapping the second occurrence of the weekly series below. -/
def c10Blocker : Session :=
  ⟨50, 99, 2, 1736764200000, 1736767800000, none, none, .scheduled,
   ⟨false, none⟩, ⟨false, none, none, none⟩, none, none, none, none⟩

/-- Store holding only the blocking session. -/
def c10Store : List Session := [c10Blocker]

/-- Tutor 2 with a single Monday 09:00 to 12:00 slot. -/
def c10Tutor : User := ⟨.tutor, [⟨1, 540, 720⟩]⟩

/-- A weekly recurring booking request for Mondays 10:00 to 11:00 UTC
starting 2025-01-06, ending before 2025-01-27. -/
def c10Req : BookRequest :=
  ⟨2, 1736157600000, 1736161200000, some ⟨true, .weekly, 1737936000000⟩⟩

/-- The series the Recurrence Expander produces for c10Req. -/
def c10Series : List Session :=
  createRecurringSessions ⟨1, 2, 1736157600000, 1736161200000⟩ .weekly
    1737936000000 100 10

/-- C10: for a recurring booking, success of Book is equivalent to the
window validations, the conflict check and the availability check holding
for the base (parent) window alone, with no condition on any child window;
concretely, a weekly series is fully persisted even though its second
occurrence overlaps a stored active session of the same tutor. -/
theorem c10_recurring_checks_base_only :
    (∀ (store : List Session) (t : User) (studentId : Nat)
       (req : BookRequest) (now : Int) (nextId fuel : Nat)
       (rr : RecurringRequest),
      req.recurring = some rr → rr.isRecurring = true →
      (book store (some t) studentId req now nextId fuel =
          .created (createRecurringSessions
            ⟨studentId, req.tutorId, req.scheduledStart, req.scheduledEnd⟩
            rr.frequency rr.endDate nextId fuel) ↔
        (req.scheduledStart < req.scheduledEnd ∧ now < req.scheduledStart ∧
         (t.role = .tutor ∨ t.role = .both) ∧
         checkSchedulingConflicts store studentId req.tutorId
           req.scheduledStart req.scheduledEnd none = [] ∧
         checkTutorAvailability t req.scheduledStart req.scheduledEnd = true))) ∧
    (book c10Store (some c10Tutor) 1 c10Req 0 100 10 = .created c10Series ∧
     (c10Series.getD 1 emptySession).scheduledStart < c10Blocker.scheduledEnd ∧
     c10Blocker.scheduledStart < (c10Series.getD 1 emptySession).scheduledEnd ∧
     (c10Series.getD 1 emptySession).tutor = c10Blocker.tutor ∧
     c10Blocker ∈ c10Store ∧ statusActive c10Blocker.status = true ∧
     (c10Series.getD 1 emptySession).recurring.parentSession = some 100) := by
  constructor
  · intro store t studentId req now nextId fuel rr hrec hr
    by_cases h1 : req.scheduledStart ≥ req.scheduledEnd
    · have hb : book store (some t) studentId req now nextId fuel =
          .invalidWindow := by simp [book, h1]
      rw [hb]
      exact ⟨(fun h => nomatch h), fun h => absurd h.1 (by omega)⟩
    · by_cases h2 : req.scheduledStart ≤ now
      · have hb : book store (some t) studentId req now nextId fuel =
            .notFuture := by simp [book, h1, h2]
        rw [hb]
        exact ⟨(fun h => nomatch h), fun h => absurd h.2.1 (by omega)⟩
      · by_cases h3 : t.role = .tutor ∨ t.role = .both
        · by_cases h4 : checkSchedulingConflicts store studentId req.tutorId
              req.scheduledStart req.scheduledEnd none = []
          · by_cases h5 : checkTutorAvailability t req.scheduledStart
                req.scheduledEnd = false
            · have hb : book store (some t) studentId req now nextId fuel =
                  .tutorUnavailable := by simp [book, h1, h2, h3, h4, h5]
              rw [hb]
              refine ⟨(fun h => nomatch h), fun h => ?_⟩
              rw [h.2.2.2.2] at h5
              cases h5
            · have hav : checkTutorAvailability t req.scheduledStart
                  req.scheduledEnd = true := by simpa using h5
              have hb : book store (some t) studentId req now nextId fuel =
                  .created (createRecurringSessions
                    ⟨studentId, req.tutorId, req.scheduledStart, req.scheduledEnd⟩
                    rr.frequency rr.endDate nextId fuel) := by
                simp [book, h1, h2, h3, h4, h5, hrec, hr]
              rw [hb]
              exact ⟨fun _ => ⟨by omega, by omega, h3, h4, hav⟩, fun _ => rfl⟩
          · have hb : book store (some t) studentId req now nextId fuel =
                .schedulingConflict (checkSchedulingConflicts store studentId
                  req.tutorId req.scheduledStart req.scheduledEnd none) := by
              simp [book, h1, h2, h3, h4]
            rw [hb]
            exact ⟨(fun h => nomatch h), fun h => absurd h.2.2.2.1 h4⟩
        · have hb : book store (some t) studentId req now nextId fuel =
              .tutorNotFound := by simp [book, h1, h2, h3]
          rw [hb]
          exact ⟨(fun h => nomatch h), fun h => absurd h.2.2.1 h3⟩
  · refine ⟨rfl, by decide, by decide, rfl, ?_, rfl, rfl⟩
    exact List.mem_singleton.mpr rfl

/-- Witness for c10_recurring_checks_base_only on a concrete recurring
request with an empty store. -/
theorem c10_recurring_checks_base_only_witness :
    book [] (some c10Tutor) 1 c10Req 0 100 10 =
        .created (createRecurringSessions
          ⟨1, c10Req.tutorId, c10Req.scheduledStart, c10Req.scheduledEnd⟩
          Frequency.weekly 1737936000000 100 10) ↔
      (c10Req.scheduledStart < c10Req.scheduledEnd ∧
       (0 : Int) < c10Req.scheduledStart ∧
       (c10Tutor.role = .tutor ∨ c10Tutor.role = .both) ∧
       checkSchedulingConflicts [] 1 c10Req.tutorId
         c10Req.scheduledStart c10Req.scheduledEnd none = [] ∧
       checkTutorAvailability c10Tutor c10Req.scheduledStart
         c10Req.scheduledEnd = true) :=
  c10_recurring_checks_base_only.1 [] c10Tutor 1 c10Req 0 100 10
    ⟨true, .weekly, 1737936000000⟩ rfl rfl

end PeerTutoring
